import Mathlib

/-!
Shallow embedding of `src/FacePlate.py` (FreeCAD macro "Heating Control
Faceplate V6").  The script builds a single solid by a fixed sequence of
boolean operations on boxes, cylinders and cones.  We embed the shapes as a
symbolic CSG tree over exact rationals (all dimensions in the script are exact
decimal millimetre values), and the construction as pure functions that mirror
the script statement by statement.  `Part.Shape.makeFillet` may raise a
geometric exception; the script catches any exception and falls back to the
unfilleted box, so the embedding takes a success oracle (`Bool` per attempt)
and models both outcomes.
-/

namespace FacePlate

/-- A 3-component vector of exact rationals, mirroring `FreeCAD.Vector`. -/
structure Vec3 where
  x : ℚ
  y : ℚ
  z : ℚ
deriving DecidableEq

instance : Add Vec3 :=
  ⟨fun a b => ⟨a.x + b.x, a.y + b.y, a.z + b.z⟩⟩

/-- Symbolic CSG shapes: the `Part` primitives and boolean operations the
script uses.  `empty` is the null shape `Part.Shape()`; `fillet s r` is
`s.makeFillet(r, edges)` applied to the Z-parallel edges of `s`. -/
inductive Shape where
  | empty : Shape
  | box (l w h : ℚ) (pos : Vec3) : Shape
  | cylinder (r h : ℚ) (pos dir : Vec3) : Shape
  | cone (r1 r2 h : ℚ) (pos dir : Vec3) : Shape
  | fillet (s : Shape) (r : ℚ) : Shape
  | cut (a b : Shape) : Shape
  | fuse (a b : Shape) : Shape
deriving DecidableEq

/- ============================================================
   PARAMETERS (module constants of FacePlate.py, lines 27-74)
   ============================================================ -/

def FACEPLATE_WIDTH : ℚ := 146.0
def FACEPLATE_HEIGHT : ℚ := 86.0
def FACEPLATE_THICKNESS : ℚ := 4.0

def SCREW_SPACING : ℚ := 120.0
def SCREW_DIAMETER : ℚ := 4.0
def SCREW_COUNTERSINK_DIAMETER : ℚ := 8.0
def SCREW_COUNTERSINK_DEPTH : ℚ := 2.0

def BILRESA_LENGTH : ℚ := 47.0
def BILRESA_WIDTH : ℚ := 16.6
def BILRESA_THICKNESS : ℚ := 0.5
def BILRESA_CORNER_RADIUS : ℚ := 8.3

def NUM_BILRESA : ℕ := 3

def BILRESA_SPACING : ℚ := 40.0

def LED_HOLE_DIAMETER : ℚ := 10.75
def LED_HEAD_DIAMETER : ℚ := 11.6
def LED_COUNTERSINK_DEPTH : ℚ := 1.0

def BILRESA_FRONT_WALL : ℚ := 1.0
def BILRESA_POCKET_DEPTH : ℚ := 0.7
def BILRESA_CLEARANCE : ℚ := 0.2

def SHELLY_WIDTH : ℚ := 35.0
def SHELLY_HEIGHT : ℚ := 29.0
def SHELLY_DEPTH : ℚ := 16.0

def SHELLY_WALL_THICKNESS : ℚ := 2.0
def SHELLY_LIP_HEIGHT : ℚ := 2.0
def SHELLY_LIP_DEPTH : ℚ := 1.5
def SHELLY_CLEARANCE : ℚ := -0.75
def SHELLY_SHELF_THICKNESS : ℚ := 2.0

/- ============================================================
   Shape observations (coordinate accessors used by theorems)
   ============================================================ -/

/-- Low Z coordinate of a box (its `pos.z`). -/
def boxZLo : Shape → ℚ
  | Shape.box _ _ _ p => p.z
  | _ => 0

/-- High Z coordinate of a box (`pos.z` + height). -/
def boxZHi : Shape → ℚ
  | Shape.box _ _ h p => p.z + h
  | _ => 0

/-- Low X coordinate of a box. -/
def boxXLo : Shape → ℚ
  | Shape.box _ _ _ p => p.x
  | _ => 0

/-- High X coordinate of a box (`pos.x` + length). -/
def boxXHi : Shape → ℚ
  | Shape.box l _ _ p => p.x + l
  | _ => 0

/-- Low Y coordinate of a box. -/
def boxYLo : Shape → ℚ
  | Shape.box _ _ _ p => p.y
  | _ => 0

/-- High Y coordinate of a box (`pos.y` + width). -/
def boxYHi : Shape → ℚ
  | Shape.box _ w _ p => p.y + w
  | _ => 0

/-- Whether a shape is a primitive box. -/
def isBox : Shape → Bool
  | Shape.box _ _ _ _ => true
  | _ => false

/-- Radius of a cylinder primitive. -/
def cylRadius : Shape → ℚ
  | Shape.cylinder r _ _ _ => r
  | _ => 0

/-- Height of a cylinder primitive. -/
def cylHeight : Shape → ℚ
  | Shape.cylinder _ h _ _ => h
  | _ => 0

/-- Base point of a cylinder primitive. -/
def cylBase : Shape → Vec3
  | Shape.cylinder _ _ p _ => p
  | _ => ⟨0, 0, 0⟩

/-- Axis direction of a cylinder primitive. -/
def cylAxis : Shape → Vec3
  | Shape.cylinder _ _ _ d => d
  | _ => ⟨0, 0, 0⟩

/-- Small (base) radius of a cone primitive. -/
def coneR1 : Shape → ℚ
  | Shape.cone r1 _ _ _ _ => r1
  | _ => 0

/-- Large (top) radius of a cone primitive. -/
def coneR2 : Shape → ℚ
  | Shape.cone _ r2 _ _ _ => r2
  | _ => 0

/-- Height of a cone primitive. -/
def coneHeight : Shape → ℚ
  | Shape.cone _ _ h _ _ => h
  | _ => 0

/-- Base point of a cone primitive. -/
def coneBase : Shape → Vec3
  | Shape.cone _ _ _ p _ => p
  | _ => ⟨0, 0, 0⟩

/-- Axis direction of a cone primitive. -/
def coneAxis : Shape → Vec3
  | Shape.cone _ _ _ _ d => d
  | _ => ⟨0, 0, 0⟩

/-- Whether shape `t` occurs as a subterm of shape `s` (so a boolean
operation involving `t` contributed to building `s`). -/
def occursIn (t : Shape) : Shape → Bool
  | Shape.empty => decide (Shape.empty = t)
  | Shape.box l w h p => decide (Shape.box l w h p = t)
  | Shape.cylinder r h p d => decide (Shape.cylinder r h p d = t)
  | Shape.cone r1 r2 h p d => decide (Shape.cone r1 r2 h p d = t)
  | Shape.fillet s r => decide (Shape.fillet s r = t) || occursIn t s
  | Shape.cut a b => decide (Shape.cut a b = t) || occursIn t a || occursIn t b
  | Shape.fuse a b => decide (Shape.fuse a b = t) || occursIn t a || occursIn t b

/- ============================================================
   Fillet attempt (lines 168-181 and 356-369)
   ============================================================ -/

/-- Number of Z-parallel edges collected by the edge loop of the script: a box
from `Part.makeBox` has exactly 4 vertical edges, any other shape is not fed
to the loop. -/
def zParallelEdgeCount : Shape → ℕ
  | Shape.box _ _ _ _ => 4
  | _ => 0

/-- `if edges_to_fillet: try fillet except: fall back` — `ok` is the oracle
for whether `makeFillet` succeeds (raises no exception). On failure or when
no edge was collected, the unfilleted shape is used and construction
continues; nothing is logged on either path. -/
def tryFillet (ok : Bool) (b : Shape) (r : ℚ) : Shape :=
  if zParallelEdgeCount b ≠ 0 then
    if ok then Shape.fillet b r else b
  else b

/- ============================================================
   Base plate and screw holes (lines 90-127)
   ============================================================ -/

def base_box : Shape :=
  Shape.box FACEPLATE_WIDTH FACEPLATE_HEIGHT FACEPLATE_THICKNESS
    ⟨-FACEPLATE_WIDTH / 2, -FACEPLATE_HEIGHT / 2, 0⟩

def screw_positions : List Vec3 :=
  [⟨-SCREW_SPACING / 2, 0, 0⟩, ⟨SCREW_SPACING / 2, 0, 0⟩]

def screw_hole (pos : Vec3) : Shape :=
  Shape.cylinder (SCREW_DIAMETER / 2) (FACEPLATE_THICKNESS + 1)
    (pos + ⟨0, 0, -0.5⟩) ⟨0, 0, 1⟩

def screw_countersink (pos : Vec3) : Shape :=
  Shape.cone (SCREW_DIAMETER / 2) (SCREW_COUNTERSINK_DIAMETER / 2)
    SCREW_COUNTERSINK_DEPTH
    (pos + ⟨0, 0, FACEPLATE_THICKNESS - SCREW_COUNTERSINK_DEPTH⟩) ⟨0, 0, 1⟩

def cutScrew (fp : Shape) (pos : Vec3) : Shape :=
  (fp.cut (screw_hole pos)).cut (screw_countersink pos)

def faceplate_after_screws : Shape :=
  screw_positions.foldl cutScrew base_box

/- ============================================================
   BILRESA pocket layout and pockets (lines 135-183)
   ============================================================ -/

def bilresa_y_pos : ℚ := -12.0

def total_span : ℚ := BILRESA_SPACING * ((NUM_BILRESA : ℚ) - 1)

def start_x : ℚ := -total_span / 2

def bilresa_x (i : ℕ) : ℚ := start_x + (i : ℚ) * BILRESA_SPACING

def bilresa_pos (i : ℕ) : Vec3 := ⟨bilresa_x i, bilresa_y_pos, 0⟩

def bilresa_positions : List Vec3 := (List.range NUM_BILRESA).map bilresa_pos

def pocket_width : ℚ := BILRESA_WIDTH + BILRESA_CLEARANCE
def pocket_length : ℚ := BILRESA_LENGTH + BILRESA_CLEARANCE
def pocket_corner_radius : ℚ := BILRESA_CORNER_RADIUS + BILRESA_CLEARANCE / 2

def pocket_z_depth : ℚ := FACEPLATE_THICKNESS - BILRESA_FRONT_WALL

def pocket_box (pos : Vec3) : Shape :=
  Shape.box pocket_width pocket_length pocket_z_depth
    ⟨pos.x - pocket_width / 2, pos.y - pocket_length / 2, 0⟩

/-- The fillet radius actually passed to `makeFillet` for the pockets:
`pocket_corner_radius - 0.1` (line 177). -/
def pocket_fillet_radius : ℚ := pocket_corner_radius - 0.1

def mkPocket (ok : Bool) (pos : Vec3) : Shape :=
  tryFillet ok (pocket_box pos) pocket_fillet_radius

def cutPockets (okp : ℕ → Bool) (fp : Shape) : Shape :=
  (List.range NUM_BILRESA).foldl
    (fun s i => s.cut (mkPocket (okp i) (bilresa_pos i))) fp

def faceplate_after_pockets (okp : ℕ → Bool) : Shape :=
  cutPockets okp faceplate_after_screws

/- ============================================================
   LED holes (lines 188-209)
   ============================================================ -/

def led_y_pos : ℚ := 30.0

/-- LED centre: same X as the BILRESA position, fixed Y (`led_y_pos`). -/
def led_centre (pos : Vec3) : Vec3 := ⟨pos.x, led_y_pos, 0⟩

def led_hole (pos : Vec3) : Shape :=
  Shape.cylinder (LED_HOLE_DIAMETER / 2) (FACEPLATE_THICKNESS + 1)
    (led_centre pos + ⟨0, 0, -0.5⟩) ⟨0, 0, 1⟩

def led_recess (pos : Vec3) : Shape :=
  Shape.cylinder (LED_HEAD_DIAMETER / 2) (LED_COUNTERSINK_DEPTH + 0.1)
    (led_centre pos + ⟨0, 0, FACEPLATE_THICKNESS - LED_COUNTERSINK_DEPTH⟩)
    ⟨0, 0, 1⟩

def cutLeds (fp : Shape) : Shape :=
  bilresa_positions.foldl
    (fun s pos => (s.cut (led_hole pos)).cut (led_recess pos)) fp

def faceplate_after_leds (okp : ℕ → Bool) : Shape :=
  cutLeds (faceplate_after_pockets okp)

/- ============================================================
   Shelly cradles (lines 217-329)
   ============================================================ -/

def cradle_internal_width : ℚ := SHELLY_WIDTH + SHELLY_CLEARANCE
def cradle_internal_height : ℚ := SHELLY_HEIGHT + SHELLY_CLEARANCE

def cradle_external_width : ℚ := cradle_internal_width + 2 * SHELLY_WALL_THICKNESS
def cradle_external_height : ℚ := cradle_internal_height + SHELLY_SHELF_THICKNESS

def cradle_depth : ℚ := SHELLY_DEPTH + SHELLY_SHELF_THICKNESS

def shelly_y_pos : ℚ := -FACEPLATE_HEIGHT / 2 + cradle_external_height / 2 + 6.0

def z_back : ℚ := -cradle_depth

def shelf (x : ℚ) : Shape :=
  Shape.box cradle_external_width SHELLY_SHELF_THICKNESS cradle_depth
    ⟨x - cradle_external_width / 2, shelly_y_pos - cradle_external_height / 2, z_back⟩

def shelf_lip (x : ℚ) : Shape :=
  Shape.box cradle_internal_width SHELLY_LIP_DEPTH SHELLY_LIP_HEIGHT
    ⟨x - cradle_internal_width / 2,
     shelly_y_pos - cradle_external_height / 2 + SHELLY_SHELF_THICKNESS, z_back⟩

def left_guide (x : ℚ) : Shape :=
  Shape.box SHELLY_WALL_THICKNESS cradle_internal_height cradle_depth
    ⟨x - cradle_external_width / 2,
     shelly_y_pos - cradle_external_height / 2 + SHELLY_SHELF_THICKNESS, z_back⟩

def left_lip (x : ℚ) : Shape :=
  Shape.box SHELLY_LIP_DEPTH cradle_internal_height SHELLY_LIP_HEIGHT
    ⟨x - cradle_external_width / 2 + SHELLY_WALL_THICKNESS,
     shelly_y_pos - cradle_external_height / 2 + SHELLY_SHELF_THICKNESS, z_back⟩

def right_guide (x : ℚ) : Shape :=
  Shape.box SHELLY_WALL_THICKNESS cradle_internal_height cradle_depth
    ⟨x + cradle_external_width / 2 - SHELLY_WALL_THICKNESS,
     shelly_y_pos - cradle_external_height / 2 + SHELLY_SHELF_THICKNESS, z_back⟩

def right_lip (x : ℚ) : Shape :=
  Shape.box SHELLY_LIP_DEPTH cradle_internal_height SHELLY_LIP_HEIGHT
    ⟨x + cradle_external_width / 2 - SHELLY_WALL_THICKNESS - SHELLY_LIP_DEPTH,
     shelly_y_pos - cradle_external_height / 2 + SHELLY_SHELF_THICKNESS, z_back⟩

/-- The six boxes of one cradle, in construction order. -/
def cradle_parts (x : ℚ) : List Shape :=
  [shelf x, shelf_lip x, left_guide x, left_lip x, right_guide x, right_lip x]

/-- One cradle: the boolean union (`fuse`) of its six boxes (lines 316-320). -/
def cradle (x : ℚ) : Shape :=
  (((((shelf x).fuse (shelf_lip x)).fuse (left_guide x)).fuse
      (left_lip x)).fuse (right_guide x)).fuse (right_lip x)

/-- The cradles collected into one shape: start from the null shape and fuse
each cradle in (lines 233, 323-326, with the `isNull` check on the first). -/
def shelly_housings : Shape :=
  (List.range NUM_BILRESA).foldl
    (fun h i => if h = Shape.empty then cradle (bilresa_x i)
                else h.fuse (cradle (bilresa_x i)))
    Shape.empty

/-- The manufactured faceplate solid: all cuts applied, then the cradle
collection fused on (line 329). -/
def faceplate_final (okp : ℕ → Bool) : Shape :=
  (faceplate_after_leds okp).fuse shelly_housings

/- ============================================================
   Reference (visual-only) solids (lines 338-395)
   ============================================================ -/

def plate_z : ℚ := pocket_z_depth - BILRESA_THICKNESS

def plate_box (pos : Vec3) : Shape :=
  Shape.box BILRESA_WIDTH BILRESA_LENGTH BILRESA_THICKNESS
    ⟨pos.x - BILRESA_WIDTH / 2, pos.y - BILRESA_LENGTH / 2, plate_z⟩

/-- The fillet radius passed to `makeFillet` for the reference plates
(line 365). -/
def plate_fillet_radius : ℚ := BILRESA_CORNER_RADIUS - 0.1

/-- Reference BILRESA plate shape; `ok` is the fillet-success oracle for this
attempt. -/
def plate_shape (ok : Bool) (pos : Vec3) : Shape :=
  tryFillet ok (plate_box pos) plate_fillet_radius

/-- Reference Shelly box (lines 381-390). -/
def shelly_ref_box (x : ℚ) : Shape :=
  Shape.box SHELLY_WIDTH SHELLY_HEIGHT SHELLY_DEPTH
    ⟨x - SHELLY_WIDTH / 2,
     shelly_y_pos - cradle_external_height / 2 + SHELLY_SHELF_THICKNESS
       + SHELLY_CLEARANCE / 2,
     -cradle_depth + SHELLY_SHELF_THICKNESS⟩

/- ============================================================
   Document construction (lines 334-335, 341-395)
   ============================================================ -/

/-- The document as a list of named objects in creation order: the
manufactured faceplate is registered first (lines 334-335), then the three
reference plate objects, then the three reference Shelly objects.  `okp` is
the fillet oracle for the pocket attempts, `okl` for the plate attempts.
The last parameter stands for the module constant `BILRESA_POCKET_DEPTH`
(line 61): it appears nowhere in the body because `create_faceplate` never
reads it. -/
def create_faceplate (okp okl : ℕ → Bool) (bilresa_pocket_depth : ℚ) :
    List (String × Shape) :=
  [("HeatingFaceplate", faceplate_final okp)]
    ++ (List.range NUM_BILRESA).map
        (fun i => ("BILRESA_Plate_" ++ toString (i + 1),
                   plate_shape (okl i) (bilresa_pos i)))
    ++ (List.range NUM_BILRESA).map
        (fun i => ("Shelly_" ++ toString (i + 1),
                   shelly_ref_box (bilresa_x i)))

/-- The document as it stands right after the faceplate object is added
(line 335), before any reference solid is created. -/
def doc_after_faceplate (okp : ℕ → Bool) : List (String × Shape) :=
  [("HeatingFaceplate", faceplate_final okp)]

/-- The separator line printed by the script: 60 equals signs.  Every
printed line is built from module constants and derived positions only; in
particular no branch of the construction — the fillet fallbacks included —
prints anything, so the output mentions no oracle. -/
def sep_line : String := String.mk (List.replicate 60 (Char.ofNat 61))

/-- The console output of the run (lines 407-420), continued below. -/
def summary_output : List String :=
  [sep_line,
   "Heating Control Faceplate V6 created!",
   sep_line,
   "Faceplate size: " ++ toString FACEPLATE_WIDTH ++ " x "
     ++ toString FACEPLATE_HEIGHT ++ " x " ++ toString FACEPLATE_THICKNESS
     ++ " mm",
   "Screw spacing: " ++ toString SCREW_SPACING ++ " mm (centred)",
   "BILRESA pockets: " ++ toString NUM_BILRESA ++ "x VERTICAL ("
     ++ toString BILRESA_LENGTH ++ "mm x " ++ toString BILRESA_WIDTH ++ "mm)",
   "  -> Back-accessible: " ++ toString pocket_z_depth ++ "mm deep, "
     ++ toString BILRESA_FRONT_WALL ++ "mm front wall",
   "  -> Slide plates in from back after printing",
   "  -> Position: Y=" ++ toString bilresa_y_pos ++ "mm",
   "LED holes: " ++ toString NUM_BILRESA ++ "x ("
     ++ toString LED_HOLE_DIAMETER ++ "mm)",
   "Shelly housings: " ++ toString NUM_BILRESA ++ "x cradles on back (tighter fit)",
   "  -> Shelly size: " ++ toString SHELLY_WIDTH ++ " x "
     ++ toString SHELLY_HEIGHT ++ " x " ++ toString SHELLY_DEPTH ++ " mm",
   "  -> Cradle depth: " ++ toString cradle_depth ++ " mm from back surface",
   sep_line]

/-- A whole run: the document together with the console output. -/
def create_faceplate_run (okp okl : ℕ → Bool) (bilresa_pocket_depth : ℚ) :
    List (String × Shape) × List String :=
  (create_faceplate okp okl bilresa_pocket_depth, summary_output)

/- ============================================================
   Derived cradle extents (measurements over the embedded boxes)
   ============================================================ -/

/-- Least X coordinate over the six boxes of the cradle at `x`. -/
def cradleXLo (x : ℚ) : ℚ :=
  ((cradle_parts x).map boxXLo).foldl min (boxXLo (shelf x))

/-- Greatest X coordinate over the six boxes of the cradle at `x`. -/
def cradleXHi (x : ℚ) : ℚ :=
  ((cradle_parts x).map boxXHi).foldl max (boxXHi (shelf x))

/-- Least Y coordinate over the six boxes of the cradle at `x`. -/
def cradleYLo (x : ℚ) : ℚ :=
  ((cradle_parts x).map boxYLo).foldl min (boxYLo (shelf x))

/-- Greatest Y coordinate over the six boxes of the cradle at `x`. -/
def cradleYHi (x : ℚ) : ℚ :=
  ((cradle_parts x).map boxYHi).foldl max (boxYHi (shelf x))

/-- A cradle part is a box lying entirely at or behind the back face
`z = 0`. -/
def boxBehindBack (s : Shape) : Bool :=
  isBox s && decide (boxZLo s ≤ 0) && decide (boxZHi s ≤ 0)

/- ============================================================
   Helper lemmas
   ============================================================ -/

/-- Unfolding lemma for `Vec3` addition. -/
theorem Vec3.add_def (a b : Vec3) :
    a + b = ⟨a.x + b.x, a.y + b.y, a.z + b.z⟩ := rfl

/-- The X-lengths of all box primitives occurring in a shape. -/
def boxLens : Shape → List ℚ
  | Shape.box l _ _ _ => [l]
  | Shape.fillet s _ => boxLens s
  | Shape.cut a b => boxLens a ++ boxLens b
  | Shape.fuse a b => boxLens a ++ boxLens b
  | _ => []

/-- If `t` occurs as a subterm of `s`, every box X-length of `t` is a box
X-length of `s`. -/
theorem boxLens_subset_of_occursIn {t : Shape} :
    ∀ {s : Shape}, occursIn t s = true → ∀ q ∈ boxLens t, q ∈ boxLens s := by
  intro s
  induction s with
  | empty =>
      intro h q hq
      rw [occursIn, decide_eq_true_eq] at h
      rw [h]
      exact hq
  | box l w hh p =>
      intro h q hq
      rw [occursIn, decide_eq_true_eq] at h
      rw [h]
      exact hq
  | cylinder r hh p d =>
      intro h q hq
      rw [occursIn, decide_eq_true_eq] at h
      rw [h]
      exact hq
  | cone r1 r2 hh p d =>
      intro h q hq
      rw [occursIn, decide_eq_true_eq] at h
      rw [h]
      exact hq
  | fillet s r ih =>
      intro h q hq
      rw [occursIn, Bool.or_eq_true, decide_eq_true_eq] at h
      rcases h with h | h
      · rw [h]; exact hq
      · exact ih h q hq
  | cut a b iha ihb =>
      intro h q hq
      rw [occursIn, Bool.or_eq_true, Bool.or_eq_true, decide_eq_true_eq] at h
      rw [boxLens, List.mem_append]
      rcases h with (h | h) | h
      · rw [← h] at hq
        rw [boxLens, List.mem_append] at hq
        exact hq
      · exact Or.inl (iha h q hq)
      · exact Or.inr (ihb h q hq)
  | fuse a b iha ihb =>
      intro h q hq
      rw [occursIn, Bool.or_eq_true, Bool.or_eq_true, decide_eq_true_eq] at h
      rw [boxLens, List.mem_append]
      rcases h with (h | h) | h
      · rw [← h] at hq
        rw [boxLens, List.mem_append] at hq
        exact hq
      · exact Or.inl (iha h q hq)
      · exact Or.inr (ihb h q hq)

/-- Whatever the fillet outcome, a pocket contributes exactly the X-length
of the pocket box. -/
theorem boxLens_mkPocket (ok : Bool) (pos : Vec3) :
    boxLens (mkPocket ok pos) = [pocket_width] := by
  cases ok <;> rfl

/-- Whatever the fillet outcome, a reference plate contributes exactly the
X-length of the plate box. -/
theorem boxLens_plate_shape (ok : Bool) (pos : Vec3) :
    boxLens (plate_shape ok pos) = [BILRESA_WIDTH] := by
  cases ok <;> rfl

/-- The box X-lengths of the manufactured solid, independent of the pocket
fillet oracle. -/
theorem boxLens_faceplate_final (okp : ℕ → Bool) :
    boxLens (faceplate_final okp)
      = [FACEPLATE_WIDTH, pocket_width, pocket_width, pocket_width,
         cradle_external_width, cradle_internal_width, SHELLY_WALL_THICKNESS,
         SHELLY_LIP_DEPTH, SHELLY_WALL_THICKNESS, SHELLY_LIP_DEPTH,
         cradle_external_width, cradle_internal_width, SHELLY_WALL_THICKNESS,
         SHELLY_LIP_DEPTH, SHELLY_WALL_THICKNESS, SHELLY_LIP_DEPTH,
         cradle_external_width, cradle_internal_width, SHELLY_WALL_THICKNESS,
         SHELLY_LIP_DEPTH, SHELLY_WALL_THICKNESS, SHELLY_LIP_DEPTH] := by
  simp [faceplate_final, faceplate_after_leds, faceplate_after_pockets,
    faceplate_after_screws, cutLeds, cutPockets, cutScrew, shelly_housings,
    bilresa_positions, NUM_BILRESA, List.range_succ, boxLens_mkPocket,
    boxLens, cradle, base_box, screw_hole, screw_countersink, led_hole,
    led_recess, shelf, shelf_lip, left_guide, left_lip, right_guide,
    right_lip, screw_positions]

/- ============================================================
   Theorems for the claims
   ============================================================ -/

/-- C1: for every mounting-plate pocket, the cut depth from the back face
(`pocket_z_depth`) plus the retained front wall (`BILRESA_FRONT_WALL`)
equals the total thickness (`FACEPLATE_THICKNESS`); the pocket box starts at
the back face `z = 0` and ends at `z = pocket_z_depth`, leaving a front skin
of exactly `BILRESA_FRONT_WALL`. -/
theorem pocket_depth_plus_front_wall (i : Fin NUM_BILRESA) :
    pocket_z_depth + BILRESA_FRONT_WALL = FACEPLATE_THICKNESS ∧
    boxZLo (pocket_box (bilresa_pos i)) = 0 ∧
    boxZHi (pocket_box (bilresa_pos i)) = pocket_z_depth ∧
    FACEPLATE_THICKNESS - boxZHi (pocket_box (bilresa_pos i))
      = BILRESA_FRONT_WALL := by
  refine ⟨?_, rfl, ?_, ?_⟩
  · norm_num [pocket_z_depth, FACEPLATE_THICKNESS, BILRESA_FRONT_WALL]
  · simp [boxZHi, pocket_box]
  · simp only [boxZHi, pocket_box]
    norm_num [pocket_z_depth, FACEPLATE_THICKNESS, BILRESA_FRONT_WALL]

/-- C2: consecutive pocket centre X coordinates differ by exactly
`BILRESA_SPACING`, the centre set is symmetric about `x = 0`, and the first
centre is at `-BILRESA_SPACING * (NUM_BILRESA - 1) / 2`. -/
theorem bilresa_pitch_and_symmetry :
    (∀ i : ℕ, bilresa_x (i + 1) - bilresa_x i = BILRESA_SPACING) ∧
    (∀ i : Fin NUM_BILRESA, bilresa_x i + bilresa_x (NUM_BILRESA - 1 - i) = 0) ∧
    bilresa_x 0 = -(BILRESA_SPACING * ((NUM_BILRESA : ℚ) - 1)) / 2 := by
  refine ⟨fun i => ?_, fun i => ?_, ?_⟩
  · simp only [bilresa_x]
    push_cast
    ring
  · fin_cases i <;>
      norm_num [bilresa_x, start_x, total_span, NUM_BILRESA, BILRESA_SPACING]
  · norm_num [bilresa_x, start_x, total_span, NUM_BILRESA, BILRESA_SPACING]

/-- C3: the two screw-hole centres are at `x = ∓ SCREW_SPACING / 2`, `y = 0`
(hence exactly `SCREW_SPACING` apart, symmetric about the centreline); each
through-cylinder has radius `SCREW_DIAMETER / 2`; each countersink cone runs
from small radius `SCREW_DIAMETER / 2` to large radius
`SCREW_COUNTERSINK_DIAMETER / 2` along `+Z`, starting at
`z = FACEPLATE_THICKNESS - SCREW_COUNTERSINK_DEPTH` so its wide end is at the
front face `z = FACEPLATE_THICKNESS`. -/
theorem screw_holes_spec :
    screw_positions.map Vec3.x = [-SCREW_SPACING / 2, SCREW_SPACING / 2] ∧
    screw_positions.map Vec3.y = [0, 0] ∧
    SCREW_SPACING / 2 - -SCREW_SPACING / 2 = SCREW_SPACING ∧
    -SCREW_SPACING / 2 + SCREW_SPACING / 2 = 0 ∧
    (∀ pos : Vec3,
      cylRadius (screw_hole pos) = SCREW_DIAMETER / 2 ∧
      cylAxis (screw_hole pos) = ⟨0, 0, 1⟩ ∧
      coneR1 (screw_countersink pos) = SCREW_DIAMETER / 2 ∧
      coneR2 (screw_countersink pos) = SCREW_COUNTERSINK_DIAMETER / 2 ∧
      coneHeight (screw_countersink pos) = SCREW_COUNTERSINK_DEPTH ∧
      coneAxis (screw_countersink pos) = ⟨0, 0, 1⟩) ∧
    screw_positions.map (fun p => (coneBase (screw_countersink p)).z)
      = [FACEPLATE_THICKNESS - SCREW_COUNTERSINK_DEPTH,
         FACEPLATE_THICKNESS - SCREW_COUNTERSINK_DEPTH] ∧
    FACEPLATE_THICKNESS - SCREW_COUNTERSINK_DEPTH + SCREW_COUNTERSINK_DEPTH
      = FACEPLATE_THICKNESS := by
  refine ⟨rfl, rfl, ?_, ?_, fun pos => ⟨rfl, rfl, rfl, rfl, rfl, rfl⟩, ?_, ?_⟩
  · norm_num [SCREW_SPACING]
  · norm_num [SCREW_SPACING]
  · simp [screw_positions, screw_countersink, coneBase, Vec3.add_def]
  · norm_num [FACEPLATE_THICKNESS, SCREW_COUNTERSINK_DEPTH]

/-- C4: the i-th LED centre shares the X coordinate of the i-th pocket
centre, its Y coordinate is the fixed `led_y_pos = 30.0`, independent of the
input position and hence of the pocket Y position; the LED cut is a
through-cylinder of radius `LED_HOLE_DIAMETER / 2` spanning past both faces,
plus a wider coaxial recess of radius `LED_HEAD_DIAMETER / 2` whose base
sits exactly `LED_COUNTERSINK_DEPTH` below the front face and which reaches
past the front face. -/
theorem led_holes_spec (i : Fin NUM_BILRESA) :
    (led_centre (bilresa_pos i)).x = bilresa_x i ∧
    (led_centre (bilresa_pos i)).y = led_y_pos ∧
    led_y_pos = 30.0 ∧
    (∀ pos : Vec3, (led_centre pos).y = led_y_pos) ∧
    (∀ pos : Vec3, (led_centre pos).x = pos.x) ∧
    (∀ pos : Vec3,
      cylRadius (led_hole pos) = LED_HOLE_DIAMETER / 2 ∧
      cylRadius (led_recess pos) = LED_HEAD_DIAMETER / 2 ∧
      (cylBase (led_recess pos)).x = (cylBase (led_hole pos)).x ∧
      (cylBase (led_recess pos)).y = (cylBase (led_hole pos)).y) ∧
    LED_HOLE_DIAMETER / 2 < LED_HEAD_DIAMETER / 2 ∧
    (cylBase (led_hole (bilresa_pos i))).z ≤ 0 ∧
    FACEPLATE_THICKNESS
      ≤ (cylBase (led_hole (bilresa_pos i))).z
          + cylHeight (led_hole (bilresa_pos i)) ∧
    (cylBase (led_recess (bilresa_pos i))).z
      = FACEPLATE_THICKNESS - LED_COUNTERSINK_DEPTH ∧
    FACEPLATE_THICKNESS
      ≤ (cylBase (led_recess (bilresa_pos i))).z
          + cylHeight (led_recess (bilresa_pos i)) ∧
    FACEPLATE_THICKNESS - (cylBase (led_recess (bilresa_pos i))).z
      = LED_COUNTERSINK_DEPTH := by
  refine ⟨rfl, rfl, rfl, fun pos => rfl, fun pos => rfl,
    fun pos => ⟨rfl, rfl, rfl, rfl⟩, ?_, ?_, ?_, ?_, ?_, ?_⟩
  all_goals
    norm_num [led_hole, led_recess, led_centre, cylBase, cylHeight,
      Vec3.add_def, FACEPLATE_THICKNESS, LED_COUNTERSINK_DEPTH,
      LED_HOLE_DIAMETER, LED_HEAD_DIAMETER]

/-- C5: each cradle is the fuse of exactly its six boxes (bottom shelf,
shelf lip, two side guides, two side lips), each of those boxes lies
entirely in `z ≤ 0`, the cradles are fused with each other into
`shelly_housings`, and the housings are then fused onto the faceplate
solid. -/
theorem cradles_six_boxes_behind_back (i : Fin NUM_BILRESA) (okp : ℕ → Bool) :
    (cradle_parts (bilresa_x i)).length = 6 ∧
    cradle (bilresa_x i)
      = (cradle_parts (bilresa_x i)).tail.foldl Shape.fuse (shelf (bilresa_x i)) ∧
    (cradle_parts (bilresa_x i)).all boxBehindBack = true ∧
    shelly_housings
      = ((cradle (bilresa_x 0)).fuse (cradle (bilresa_x 1))).fuse
          (cradle (bilresa_x 2)) ∧
    faceplate_final okp = (faceplate_after_leds okp).fuse shelly_housings := by
  refine ⟨rfl, rfl, ?_, ?_, rfl⟩
  · simp only [cradle_parts, List.all_cons, List.all_nil, boxBehindBack,
      isBox, boxZLo, boxZHi, shelf, shelf_lip, left_guide, left_lip,
      right_guide, right_lip, Bool.and_eq_true, decide_eq_true_eq,
      Bool.and_true, true_and]
    norm_num [z_back, cradle_depth, SHELLY_DEPTH, SHELLY_SHELF_THICKNESS,
      SHELLY_LIP_HEIGHT]
  · rfl

/-- C6: the cradle external width is the internal clearance envelope width
plus twice the wall thickness, the external height is the internal envelope
height plus the shelf thickness (with the negative default clearance
`SHELLY_CLEARANCE = -0.75`); and the six boxes of every cradle stay within
the external-width/height envelope around the cradle centre, with the
envelope attained (shelf spans the full external width and reaches the low
Y edge, the side guides reach the high Y edge). -/
theorem cradle_external_dims (i : Fin NUM_BILRESA) :
    cradle_external_width
      = (SHELLY_WIDTH + SHELLY_CLEARANCE) + 2 * SHELLY_WALL_THICKNESS ∧
    cradle_external_height
      = (SHELLY_HEIGHT + SHELLY_CLEARANCE) + SHELLY_SHELF_THICKNESS ∧
    SHELLY_CLEARANCE = -0.75 ∧
    (cradle_parts (bilresa_x i)).Forall (fun s =>
      bilresa_x i - cradle_external_width / 2 ≤ boxXLo s ∧
      boxXHi s ≤ bilresa_x i + cradle_external_width / 2 ∧
      shelly_y_pos - cradle_external_height / 2 ≤ boxYLo s ∧
      boxYHi s ≤ shelly_y_pos + cradle_external_height / 2) ∧
    boxXLo (shelf (bilresa_x i)) = bilresa_x i - cradle_external_width / 2 ∧
    boxXHi (shelf (bilresa_x i)) = bilresa_x i + cradle_external_width / 2 ∧
    boxYLo (shelf (bilresa_x i)) = shelly_y_pos - cradle_external_height / 2 ∧
    boxYHi (left_guide (bilresa_x i))
      = shelly_y_pos + cradle_external_height / 2 := by
  refine ⟨?_, ?_, ?_, ?_, ?_, ?_, ?_, ?_⟩
  all_goals
    simp only [cradle_parts, List.Forall, boxXLo, boxXHi, boxYLo, boxYHi,
      shelf, shelf_lip, left_guide, left_lip, right_guide, right_lip,
      cradle_external_width, cradle_external_height, cradle_internal_width,
      cradle_internal_height, SHELLY_WIDTH, SHELLY_HEIGHT, SHELLY_CLEARANCE,
      SHELLY_WALL_THICKNESS, SHELLY_SHELF_THICKNESS, SHELLY_LIP_DEPTH,
      SHELLY_LIP_HEIGHT]
  all_goals try norm_num
  all_goals repeat' constructor
  all_goals linarith

/-- C7: the manufactured faceplate solid is registered first, before any
reference solid; its entry in the finished document equals its entry in the
document as it stood before the reference solids were added (and it is
independent of the reference-plate fillet oracle); and no reference plate or
reference Shelly box occurs as a subterm of the manufactured solid, i.e. no
boolean operation involving a reference solid was ever applied to it. -/
theorem reference_solids_inert (okp okl : ℕ → Bool) (d : ℚ) :
    (create_faceplate okp okl d).head?
      = some ("HeatingFaceplate", faceplate_final okp) ∧
    (create_faceplate okp okl d).lookup "HeatingFaceplate"
      = some (faceplate_final okp) ∧
    (create_faceplate okp okl d).lookup "HeatingFaceplate"
      = (doc_after_faceplate okp).lookup "HeatingFaceplate" ∧
    (create_faceplate okp okl d).map Prod.fst
      = ["HeatingFaceplate", "BILRESA_Plate_1", "BILRESA_Plate_2",
         "BILRESA_Plate_3", "Shelly_1", "Shelly_2", "Shelly_3"] ∧
    (∀ i : Fin NUM_BILRESA, ∀ ok : Bool,
      occursIn (plate_shape ok (bilresa_pos i)) (faceplate_final okp) = false ∧
      occursIn (shelly_ref_box (bilresa_x i)) (faceplate_final okp) = false) := by
  refine ⟨rfl, rfl, rfl, rfl, fun i ok => ⟨?_, ?_⟩⟩
  · rw [← Bool.not_eq_true]
    intro hocc
    have hmem : BILRESA_WIDTH ∈ boxLens (plate_shape ok (bilresa_pos i)) := by
      rw [boxLens_plate_shape]
      exact List.mem_singleton.mpr rfl
    have := boxLens_subset_of_occursIn hocc BILRESA_WIDTH hmem
    rw [boxLens_faceplate_final] at this
    revert this
    norm_num [BILRESA_WIDTH, FACEPLATE_WIDTH, pocket_width,
      BILRESA_CLEARANCE, cradle_external_width, cradle_internal_width,
      SHELLY_WIDTH, SHELLY_CLEARANCE, SHELLY_WALL_THICKNESS, SHELLY_LIP_DEPTH]
  · rw [← Bool.not_eq_true]
    intro hocc
    have hmem : SHELLY_WIDTH ∈ boxLens (shelly_ref_box (bilresa_x i)) := by
      exact List.mem_singleton.mpr rfl
    have := boxLens_subset_of_occursIn hocc SHELLY_WIDTH hmem
    rw [boxLens_faceplate_final] at this
    revert this
    norm_num [BILRESA_WIDTH, FACEPLATE_WIDTH, pocket_width,
      BILRESA_CLEARANCE, cradle_external_width, cradle_internal_width,
      SHELLY_WIDTH, SHELLY_CLEARANCE, SHELLY_WALL_THICKNESS, SHELLY_LIP_DEPTH]

/-- C8: every fillet attempt that fails falls back to the corresponding
unfilleted box (for the pockets and the reference plates alike), the build
still produces the full document under any oracle, and the console output is
the same under any oracle — nothing is logged on the fallback path. -/
theorem fillet_failure_fallback (b : Shape) (r : ℚ) (pos : Vec3)
    (okp okl : ℕ → Bool) (d : ℚ) :
    tryFillet false b r = b ∧
    mkPocket false pos = pocket_box pos ∧
    plate_shape false pos = plate_box pos ∧
    (create_faceplate_run okp okl d).2 = summary_output ∧
    (create_faceplate_run okp okl d).2
      = (create_faceplate_run (fun _ => true) (fun _ => true) d).2 ∧
    (create_faceplate_run okp okl d).1.length = 1 + 2 * NUM_BILRESA := by
  refine ⟨?_, rfl, rfl, rfl, rfl, ?_⟩
  · by_cases h : zParallelEdgeCount b ≠ 0 <;> simp [tryFillet, h]
  · simp [create_faceplate_run, create_faceplate, NUM_BILRESA]

/-- C9: the fillet radius actually applied to the pockets is
`(BILRESA_CORNER_RADIUS + BILRESA_CLEARANCE/2) - 0.1 = 8.3`, which is
exactly `0.1` less than the true stadium corner radius of the pocket
`pocket_corner_radius = pocket_width / 2 = 8.4` and strictly below it, so
the two opposing rounded stadium ends cannot overlap; and this is the radius
`mkPocket` feeds to the fillet attempt. -/
theorem pocket_fillet_radius_reduced :
    pocket_fillet_radius
      = (BILRESA_CORNER_RADIUS + BILRESA_CLEARANCE / 2) - 0.1 ∧
    pocket_fillet_radius = 8.3 ∧
    pocket_width / 2 = 8.4 ∧
    pocket_corner_radius = pocket_width / 2 ∧
    pocket_fillet_radius < pocket_width / 2 ∧
    pocket_width / 2 - pocket_fillet_radius = 0.1 ∧
    pocket_corner_radius - pocket_fillet_radius = 0.1 ∧
    (∀ (ok : Bool) (pos : Vec3),
      mkPocket ok pos = tryFillet ok (pocket_box pos) pocket_fillet_radius) := by
  refine ⟨rfl, ?_, ?_, ?_, ?_, ?_, ?_, fun ok pos => rfl⟩ <;>
    norm_num [pocket_fillet_radius, pocket_corner_radius, pocket_width,
      BILRESA_CORNER_RADIUS, BILRESA_CLEARANCE, BILRESA_WIDTH]

/-- C10: `BILRESA_POCKET_DEPTH` is never read: two runs differing only in
its value produce identical documents and console output; the actual pocket
cut depth is `FACEPLATE_THICKNESS - BILRESA_FRONT_WALL = 3`, which differs
from `BILRESA_POCKET_DEPTH = 0.7`. -/
theorem bilresa_pocket_depth_never_read (okp okl : ℕ → Bool) (d1 d2 : ℚ) :
    create_faceplate_run okp okl d1 = create_faceplate_run okp okl d2 ∧
    pocket_z_depth = FACEPLATE_THICKNESS - BILRESA_FRONT_WALL ∧
    pocket_z_depth = 3 ∧
    BILRESA_POCKET_DEPTH = 0.7 ∧
    pocket_z_depth ≠ BILRESA_POCKET_DEPTH := by
  refine ⟨rfl, rfl, ?_, rfl, ?_⟩ <;>
    norm_num [pocket_z_depth, FACEPLATE_THICKNESS, BILRESA_FRONT_WALL,
      BILRESA_POCKET_DEPTH]

end FacePlate
